import Mathlib

/-!
Shallow embedding of `src/backend/server.js` (the Build Service API).

The server is an Express application over MongoDB via mongoose.  We model
the persistent store as an explicit `DB` value threaded through each
request handler.  MongoDB ObjectIds are modelled as naturals handed out by
a fresh-id counter; `Date.now` timestamps are naturals supplied to each
handler as a `now` argument.  bcrypt is modelled as an idealized salted
hash: `bcrypt.hash(p, 10)` produces a `HashVal` recording the cost, the
salt drawn by the library and the password, and `bcrypt.compare(p, h)`
succeeds exactly when `h` was derived from `p` (the standard idealization
of a collision-free password hash).  JSON body fields that may be absent
are `Option`s; JavaScript string truthiness (`!x` is true for a missing or
empty string) is `strTruthy`.  Each mutating handler also returns the list
of store calls (`find`/`findOne` reads, `save` writes) it issued, in
program order.
-/

namespace Lego

/-- A placed brick, as embedded in the mongoose `BuildSchema` `bricks`
array: numeric position `x, y, z`, footprint `width, depth`, packed hex
`color`, and `rotation`. -/
structure Brick where
  x : Int
  y : Int
  z : Int
  width : Int
  depth : Int
  color : Int
  rotation : Int
deriving DecidableEq, Repr

/-- Idealized bcrypt digest: records the cost factor, the salt the library
drew, and the hashed password.  `bcryptCompare` can (only) recognise the
password hidden inside, which is the defining property of the primitive. -/
structure HashVal where
  cost : Nat
  salt : Nat
  pw : String
deriving DecidableEq, Repr

/-- `bcrypt.hash(password, cost)` with the salt the library drew. -/
def bcryptHash (password : String) (cost salt : Nat) : HashVal :=
  ⟨cost, salt, password⟩

/-- `bcrypt.compare(password, stored)`: true exactly when `stored` was
derived from `password`. -/
def bcryptCompare (password : String) (stored : HashVal) : Bool :=
  password == stored.pw

/-- A document of the `User` collection (`UserSchema`): `_id`, unique
`username`, stored bcrypt hash (the schema calls it `password`), and
`createdAt` defaulted to `Date.now`. -/
structure User where
  id : Nat
  username : String
  password : HashVal
  createdAt : Nat
deriving DecidableEq, Repr

/-- A document of the `Build` collection (`BuildSchema`): `_id`, owning
`userId`, optional `name`, `createdAt` defaulted to `Date.now`, and the
ordered `bricks` array. -/
structure Build where
  id : Nat
  userId : Nat
  name : Option String
  createdAt : Nat
  bricks : List Brick
deriving DecidableEq, Repr

/-- The MongoDB state: both collections in insertion order, plus the
fresh-ObjectId counter. -/
structure DB where
  users : List User
  builds : List Build
  nextId : Nat
deriving DecidableEq, Repr

/-- One call into the document store: `findOne`/`find`/`findById` are
reads, `document.save()` is a write. -/
inductive StoreCall where
  | read
  | write
deriving DecidableEq, Repr

/-- JavaScript truthiness of an optional string body field: `!x` holds for
a missing field and for the empty string. -/
def strTruthy : Option String → Bool
  | none => false
  | some s => !(s == "")

/-- Response of `POST /api/signup`. -/
inductive SignupResult where
  | failure (status : Nat) (message : String)
  | success (message : String)
deriving DecidableEq, Repr

/-- Response of `POST /api/login`. -/
inductive LoginResult where
  | failure (status : Nat) (message : String)
  | success (userId : Nat) (username : String) (message : String)
deriving DecidableEq, Repr

/-- Response of `POST /api/save`. -/
inductive SaveResult where
  | failure (status : Nat) (message : String)
  | success (id : Nat)
deriving DecidableEq, Repr

/-- Response of `GET /api/load/:id`. -/
inductive LoadResult where
  | failure (status : Nat) (message : String)
  | success (build : Build)
deriving DecidableEq, Repr

/-- `POST /api/signup`: validate presence and lengths, reject a duplicate
username (`User.findOne`), otherwise hash the password with cost 10 and
persist the new user (`newUser.save()`). -/
def signup (db : DB) (username? password? : Option String) (now salt : Nat) :
    DB × SignupResult × List StoreCall :=
  if !(strTruthy username?) || !(strTruthy password?) then
    (db, .failure 400 "Username and password are required", [])
  else
    let username := username?.getD ""
    let password := password?.getD ""
    if username.length < 3 then
      (db, .failure 400 "Username must be at least 3 characters", [])
    else if password.length < 6 then
      (db, .failure 400 "Password must be at least 6 characters", [])
    else
      match db.users.find? (fun u => u.username == username) with
      | some _ => (db, .failure 400 "Username already exists", [.read])
      | none =>
          let newUser : User := ⟨db.nextId, username, bcryptHash password 10 salt, now⟩
          (⟨db.users ++ [newUser], db.builds, db.nextId + 1⟩,
            .success "Account created successfully", [.read, .write])

/-- `POST /api/login`: validate presence, look the user up by username
(`User.findOne`), compare the password against the stored hash; both the
unknown-username and wrong-password branches answer 401 with the same
message.  The handler never mutates the store, so it returns only the
response. -/
def login (db : DB) (username? password? : Option String) : LoginResult :=
  if !(strTruthy username?) || !(strTruthy password?) then
    .failure 400 "Username and password are required"
  else
    let username := username?.getD ""
    let password := password?.getD ""
    match db.users.find? (fun u => u.username == username) with
    | none => .failure 401 "Invalid username or password"
    | some user =>
        if !(bcryptCompare password user.password) then
          .failure 401 "Invalid username or password"
        else
          .success user.id user.username "Login successful"

/-- `POST /api/save`: only presence of `userId` in the body is checked;
a new `Build` is created from the body (mongoose defaults a missing
`bricks` array to `[]` and `createdAt` to `Date.now`) and persisted
(`newBuild.save()`), answering with the new `_id`. -/
def save (db : DB) (userId? : Option Nat) (bricks? : Option (List Brick)) (now : Nat) :
    DB × SaveResult × List StoreCall :=
  match userId? with
  | none => (db, .failure 401 "User not authenticated", [])
  | some userId =>
      let newBuild : Build := ⟨db.nextId, userId, none, now, bricks?.getD []⟩
      (⟨db.users, db.builds ++ [newBuild], db.nextId + 1⟩,
        .success db.nextId, [.write])

/-- The sort key of `.sort(\x7b createdAt: -1 \x7d)`: `a` precedes `b` when
`a.createdAt` is at least `b.createdAt` (newest first). -/
def newestFirst (a b : Build) : Prop :=
  b.createdAt ≤ a.createdAt

instance : DecidableRel newestFirst := fun a b => Nat.decLe b.createdAt a.createdAt

instance : IsTotal Build newestFirst :=
  ⟨fun a b => Nat.le_total b.createdAt a.createdAt⟩

instance : IsTrans Build newestFirst :=
  ⟨fun _ _ _ hab hbc => Nat.le_trans hbc hab⟩

/-- `GET /api/history/:userId`:
`Build.find(\x7b userId \x7d).sort(\x7b createdAt: -1 \x7d).limit(10)` —
the caller's builds, newest first, at most 10 of them.  (Express never
matches the route with an empty path segment, so the `!userId` guard of
the handler is unreachable and `userId` is taken as given.) -/
def history (db : DB) (userId : Nat) : List Build :=
  (List.insertionSort newestFirst (db.builds.filter (fun b => b.userId == userId))).take 10

/-- `GET /api/load/:id`: `Build.findById`, 404 when absent. -/
def loadBuild (db : DB) (id : Nat) : LoadResult :=
  match db.builds.find? (fun b => b.id == id) with
  | none => .failure 404 "Build not found"
  | some b => .success b

/-! ### Helper lemmas -/

lemma ne_empty_of_length {s : String} {n : Nat} (h : n + 1 ≤ s.length) : s ≠ "" := by
  intro he
  subst he
  simp [String.length] at h

lemma strTruthy_some {s : String} (h : s ≠ "") : strTruthy (some s) = true := by
  simp [strTruthy, h]

/-- Shape of a fully successful signup: the validated, non-duplicate case
appends exactly one new `User` carrying the fresh id and the bcrypt hash. -/
lemma signup_success (db : DB) (username password : String) (now salt : Nat)
    (hu : 3 ≤ username.length) (hp : 6 ≤ password.length)
    (hfind : db.users.find? (fun u => u.username == username) = none) :
    signup db (some username) (some password) now salt =
      (⟨db.users ++ [⟨db.nextId, username, bcryptHash password 10 salt, now⟩],
          db.builds, db.nextId + 1⟩,
        .success "Account created successfully", [.read, .write]) := by
  have hu0 : username ≠ "" := ne_empty_of_length (n := 2) hu
  have hp0 : password ≠ "" := ne_empty_of_length (n := 5) hp
  simp [signup, strTruthy, hu0, hp0, hfind, Nat.not_lt.mpr hu, Nat.not_lt.mpr hp]

/-! ### Concrete fixtures used by witnesses -/

/-- A concrete brick fixture. -/
def brickA : Brick := ⟨0, 0, 0, 2, 4, 255, 0⟩

/-- A second concrete brick fixture. -/
def brickB : Brick := ⟨1, 0, 2, 2, 2, 3355443, 90⟩

/-- A concrete stored user, as signup would have created it. -/
def userBob : User := ⟨0, "bob", bcryptHash "pw1234" 10 3, 0⟩

/-- A database holding exactly `userBob`. -/
def dbBob : DB := ⟨[userBob], [], 1⟩

/-! ### Claims -/

/-- C1: for every signup with a unique username of length at least 3 and a
password of length at least 6, the signup succeeds, and a subsequent login
with the same username and password succeeds and returns the userId of the
User record that the signup created (the fresh id `db.nextId`). -/
theorem C1_signup_then_login (db : DB) (username password : String) (now salt : Nat)
    (hu : 3 ≤ username.length) (hp : 6 ≤ password.length)
    (hfresh : ∀ u ∈ db.users, u.username ≠ username) :
    (signup db (some username) (some password) now salt).2.1
        = .success "Account created successfully" ∧
    (signup db (some username) (some password) now salt).1.users
        = db.users ++ [⟨db.nextId, username, bcryptHash password 10 salt, now⟩] ∧
    login (signup db (some username) (some password) now salt).1
        (some username) (some password)
        = .success db.nextId username "Login successful" := by
  have hfind : db.users.find? (fun u => u.username == username) = none := by
    rw [List.find?_eq_none]
    intro u hu'
    simpa using hfresh u hu'
  have hu0 : username ≠ "" := ne_empty_of_length (n := 2) hu
  have hp0 : password ≠ "" := ne_empty_of_length (n := 5) hp
  rw [signup_success db username password now salt hu hp hfind]
  refine ⟨rfl, rfl, ?_⟩
  simp [login, strTruthy, hu0, hp0, List.find?_append, hfind, bcryptCompare, bcryptHash]

/-- Witness for C1: a fresh database, username `alice`, password
`secret1`. -/
theorem C1_witness :
    3 ≤ "alice".length ∧ 6 ≤ "secret1".length ∧
    (∀ u ∈ (⟨[], [], 0⟩ : DB).users, u.username ≠ "alice") ∧
    (signup ⟨[], [], 0⟩ (some "alice") (some "secret1") 5 7).2.1
        = .success "Account created successfully" ∧
    login (signup ⟨[], [], 0⟩ (some "alice") (some "secret1") 5 7).1
        (some "alice") (some "secret1")
        = .success 0 "alice" "Login successful" := by
  refine ⟨by decide, by decide, by simp, ?_, ?_⟩
  · exact (C1_signup_then_login ⟨[], [], 0⟩ "alice" "secret1" 5 7
      (by decide) (by decide) (by simp)).1
  · exact (C1_signup_then_login ⟨[], [], 0⟩ "alice" "secret1" 5 7
      (by decide) (by decide) (by simp)).2.2

/-- C2: a successful save followed by a load of the returned id yields a
Build whose bricks sequence is exactly the submitted one, field for field
and in order.  The freshness hypothesis states that the id the store
assigns is not already taken, which Mongo guarantees for ObjectIds. -/
theorem C2_save_then_load (db : DB) (userId : Nat) (bricks : List Brick) (now : Nat)
    (hfresh : ∀ b ∈ db.builds, b.id ≠ db.nextId) :
    (save db (some userId) (some bricks) now).2.1 = .success db.nextId ∧
    loadBuild (save db (some userId) (some bricks) now).1 db.nextId
        = .success ⟨db.nextId, userId, none, now, bricks⟩ := by
  have hfind : db.builds.find? (fun b => b.id == db.nextId) = none := by
    rw [List.find?_eq_none]
    intro b hb
    simpa using hfresh b hb
  exact ⟨rfl, by simp [save, loadBuild, List.find?_append, hfind]⟩

/-- Witness for C2: saving two bricks into a fresh database and loading
them back. -/
theorem C2_witness :
    (∀ b ∈ (⟨[], [], 0⟩ : DB).builds, b.id ≠ 0) ∧
    (save ⟨[], [], 0⟩ (some 7) (some [brickA, brickB]) 3).2.1 = .success 0 ∧
    loadBuild (save ⟨[], [], 0⟩ (some 7) (some [brickA, brickB]) 3).1 0
        = .success ⟨0, 7, none, 3, [brickA, brickB]⟩ := by
  refine ⟨by simp, ?_, ?_⟩
  · exact (C2_save_then_load ⟨[], [], 0⟩ 7 [brickA, brickB] 3 (by simp)).1
  · exact (C2_save_then_load ⟨[], [], 0⟩ 7 [brickA, brickB] 3 (by simp)).2

/-- C3: a login naming an unknown username and a login naming an existing
username with a non-matching password produce identical responses: the
same 401 status and the same "Invalid username or password" message. -/
theorem C3_login_failures_identical (db : DB) (u1 p1 u2 p2 : String) (user : User)
    (hu1 : u1 ≠ "") (hp1 : p1 ≠ "") (hu2 : u2 ≠ "") (hp2 : p2 ≠ "")
    (hnone : db.users.find? (fun u => u.username == u1) = none)
    (hsome : db.users.find? (fun u => u.username == u2) = some user)
    (hbad : bcryptCompare p2 user.password = false) :
    login db (some u1) (some p1) = .failure 401 "Invalid username or password" ∧
    login db (some u2) (some p2) = .failure 401 "Invalid username or password" ∧
    login db (some u1) (some p1) = login db (some u2) (some p2) := by
  have e1 : login db (some u1) (some p1) = .failure 401 "Invalid username or password" := by
    simp [login, strTruthy, hu1, hp1, hnone]
  have e2 : login db (some u2) (some p2) = .failure 401 "Invalid username or password" := by
    simp [login, strTruthy, hu2, hp2, hsome, hbad]
  exact ⟨e1, e2, e1.trans e2.symm⟩

/-- Witness for C3: `alice` does not exist in `dbBob`; `bob` exists but
`wrong1` does not hash to his stored digest. -/
theorem C3_witness :
    dbBob.users.find? (fun u => u.username == "alice") = none ∧
    dbBob.users.find? (fun u => u.username == "bob") = some userBob ∧
    bcryptCompare "wrong1" userBob.password = false ∧
    login dbBob (some "alice") (some "whatever") = login dbBob (some "bob") (some "wrong1") ∧
    login dbBob (some "alice") (some "whatever")
        = .failure 401 "Invalid username or password" := by
  refine ⟨by decide, by decide, by decide, ?_, ?_⟩
  · exact (C3_login_failures_identical dbBob "alice" "whatever" "bob" "wrong1" userBob
      (by decide) (by decide) (by decide) (by decide)
      (by decide) (by decide) (by decide)).2.2
  · exact (C3_login_failures_identical dbBob "alice" "whatever" "bob" "wrong1" userBob
      (by decide) (by decide) (by decide) (by decide)
      (by decide) (by decide) (by decide)).1

/-- A parametric build fixture. -/
def mkBuild (i uid t : Nat) : Build := ⟨i, uid, none, t, []⟩

/-- A database where user 1 owns twelve builds and user 2 owns one. -/
def dbH : DB := ⟨[], (List.range 12).map (fun i => mkBuild i 1 i) ++ [mkBuild 12 2 99], 13⟩

/-- C4: `getHistory(userId)` returns at most 10 builds, all owned by the
requested user, ordered by `createdAt` descending; when the user owns at
least 10 builds it returns exactly 10, and when the filter is empty the
result is the empty list rather than an error. -/
theorem C4_history (db : DB) (uid : Nat) :
    (∀ b ∈ history db uid, b.userId = uid) ∧
    List.Sorted newestFirst (history db uid) ∧
    (history db uid).length ≤ 10 ∧
    (10 ≤ (db.builds.filter (fun b => b.userId == uid)).length →
      (history db uid).length = 10) ∧
    (db.builds.filter (fun b => b.userId == uid) = [] → history db uid = []) := by
  have hperm := List.perm_insertionSort newestFirst (db.builds.filter (fun b => b.userId == uid))
  refine ⟨?_, ?_, ?_, ?_, ?_⟩
  · intro b hb
    have hb1 : b ∈ List.insertionSort newestFirst (db.builds.filter (fun x => x.userId == uid)) :=
      List.mem_of_mem_take hb
    have hb2 : b ∈ db.builds.filter (fun x => x.userId == uid) := hperm.mem_iff.mp hb1
    simpa using (List.mem_filter.mp hb2).2
  · exact List.Pairwise.sublist (List.take_sublist 10 _)
      (List.sorted_insertionSort newestFirst _)
  · exact List.length_take_le 10 _
  · intro hge
    have hlen := hperm.length_eq
    simp only [history, List.length_take, hlen]
    omega
  · intro hempty
    simp [history, hempty]

/-- Witness for C4: in `dbH` user 1 owns twelve builds, and the history
returned for user 1 has exactly 10 entries. -/
theorem C4_witness :
    10 ≤ (dbH.builds.filter (fun b => b.userId == 1)).length ∧
    (history dbH 1).length = 10 :=
  ⟨by decide, (C4_history dbH 1).2.2.2.1 (by decide)⟩

/-- C5: `POST /api/save` fails with 401 exactly when `userId` is absent
from the body; with any `userId` present (validity and ownership are never
checked) it appends exactly one new Build with that owner, the submitted
bricks, `createdAt` set to the current time, and answers with the freshly
assigned id. -/
theorem C5_save_auth (db : DB) (userId? : Option Nat) (bricks? : Option (List Brick))
    (now : Nat) :
    (userId? = none →
      save db userId? bricks? now = (db, .failure 401 "User not authenticated", [])) ∧
    (∀ uid, userId? = some uid →
      save db userId? bricks? now =
        (⟨db.users, db.builds ++ [⟨db.nextId, uid, none, now, bricks?.getD []⟩],
            db.nextId + 1⟩,
          .success db.nextId, [.write])) := by
  constructor
  · rintro rfl
    rfl
  · rintro uid rfl
    rfl

/-- Witness for C5: a bodiless `userId` is rejected with 401 and the store
is untouched; a present `userId` (even one naming no user) creates the
build. -/
theorem C5_witness :
    save ⟨[], [], 0⟩ none (some [brickA]) 4
        = (⟨[], [], 0⟩, .failure 401 "User not authenticated", []) ∧
    save ⟨[], [], 0⟩ (some 9) (some [brickA]) 4
        = (⟨[], [⟨0, 9, none, 4, [brickA]⟩], 1⟩, .success 0, [.write]) :=
  ⟨(C5_save_auth ⟨[], [], 0⟩ none (some [brickA]) 4).1 rfl,
   (C5_save_auth ⟨[], [], 0⟩ (some 9) (some [brickA]) 4).2 9 rfl⟩

/-- Counterexample to C6 as stated: with `bob` already registered, a
signup for `bob` with the one-character password `x` is rejected by the
password-length validation, not with the "Username already exists"
conflict — the duplicate check runs only after validation, so the conflict
is not returned "regardless of the password supplied". -/
theorem C6_counterexample :
    dbBob.users.any (fun u => u.username == "bob") = true ∧
    (signup dbBob (some "bob") (some "x") 0 0).2.1
        = .failure 400 "Password must be at least 6 characters" ∧
    (signup dbBob (some "bob") (some "x") 0 0).2.1
        ≠ .failure 400 "Username already exists" := by
  exact ⟨by decide, by decide, by decide⟩

/-- C6 (amended): a signup whose username is already taken fails with the
ConflictError (status 400, message "Username already exists") regardless
of which password is supplied, provided the submitted fields pass the
validation that precedes the duplicate check (username at least 3
characters, password at least 6). -/
theorem C6_duplicate_username (db : DB) (username password : String) (now salt : Nat)
    (hu : 3 ≤ username.length) (hp : 6 ≤ password.length)
    (hdup : db.users.any (fun u => u.username == username) = true) :
    signup db (some username) (some password) now salt
        = (db, .failure 400 "Username already exists", [.read]) := by
  have hu0 : username ≠ "" := ne_empty_of_length (n := 2) hu
  have hp0 : password ≠ "" := ne_empty_of_length (n := 5) hp
  obtain ⟨user, hmem, hname⟩ := List.any_eq_true.mp hdup
  have hfind : (db.users.find? (fun u => u.username == username)).isSome = true :=
    List.find?_isSome.mpr ⟨user, hmem, hname⟩
  obtain ⟨u, hu'⟩ := Option.isSome_iff_exists.mp hfind
  simp [signup, strTruthy, hu0, hp0, Nat.not_lt.mpr hu, Nat.not_lt.mpr hp, hu']

/-- Witness for the amended C6: duplicate signup for `bob` with a fresh
valid password still yields the conflict. -/
theorem C6_witness :
    3 ≤ ("bob" : String).length ∧ 6 ≤ ("longpw" : String).length ∧
    dbBob.users.any (fun u => u.username == "bob") = true ∧
    signup dbBob (some "bob") (some "longpw") 1 2
        = (dbBob, .failure 400 "Username already exists", [.read]) :=
  ⟨by decide, by decide, by decide,
   C6_duplicate_username dbBob "bob" "longpw" 1 2 (by decide) (by decide) (by decide)⟩

lemma count_write_nil : List.count StoreCall.write ([] : List StoreCall) ≤ 1 := by decide

lemma count_write_read : List.count StoreCall.write [StoreCall.read] ≤ 1 := by decide

lemma count_write_write : List.count StoreCall.write [StoreCall.write] ≤ 1 := by decide

lemma count_write_read_write :
    List.count StoreCall.write [StoreCall.read, StoreCall.write] ≤ 1 := by decide

/-- Counterexample to C7 as stated: a successful signup issues two store
calls per request — the duplicate-username `findOne` read followed by the
`save` write — not "only one store call". -/
theorem C7_counterexample :
    ((signup ⟨[], [], 0⟩ (some "alice") (some "secret1") 0 0).2.2).length = 2 ∧
    ((signup ⟨[], [], 0⟩ (some "alice") (some "secret1") 0 0).2.2).length ≠ 1 := by
  exact ⟨by decide, by decide⟩

/-- C7 (amended): no operation leaves partial-failure state: each of the
two mutating handlers issues at most one *write* store call per request
(signup additionally issues one read, the duplicate lookup), and whenever
either returns an error response the persistent state is unchanged.
`login`, `history` and `loadBuild` are read-only by type. -/
theorem C7_atomic_mutation (db : DB) (username? password? : Option String)
    (now salt : Nat) (userId? : Option Nat) (bricks? : Option (List Brick)) :
    ((signup db username? password? now salt).2.2.count .write ≤ 1) ∧
    (∀ s m, (signup db username? password? now salt).2.1 = .failure s m →
      (signup db username? password? now salt).1 = db) ∧
    ((save db userId? bricks? now).2.2.count .write ≤ 1) ∧
    (∀ s m, (save db userId? bricks? now).2.1 = .failure s m →
      (save db userId? bricks? now).1 = db) := by
  refine ⟨?_, ?_, ?_, ?_⟩
  · simp only [signup]
    split
    · exact count_write_nil
    · split
      · exact count_write_nil
      · split
        · exact count_write_nil
        · split
          · exact count_write_read
          · exact count_write_read_write
  · intro s m
    simp only [signup]
    split
    · intro _
      rfl
    · split
      · intro _
        rfl
      · split
        · intro _
          rfl
        · split
          · intro _
            rfl
          · intro h
            exact absurd h (by simp)
  · cases userId? with
    | none => exact count_write_nil
    | some uid => exact count_write_write
  · intro s m
    cases userId? with
    | none =>
        intro _
        rfl
    | some uid =>
        intro h
        exact absurd h (by simp [save])

/-- Witness for the amended C7: a rejected signup leaves the fresh
database untouched, and a successful signup performs exactly one write. -/
theorem C7_witness :
    (signup ⟨[], [], 0⟩ (some "al") (some "secret1") 0 0).2.1
        = .failure 400 "Username must be at least 3 characters" ∧
    (signup ⟨[], [], 0⟩ (some "al") (some "secret1") 0 0).1 = ⟨[], [], 0⟩ ∧
    ((signup ⟨[], [], 0⟩ (some "alice") (some "secret1") 0 0).2.2.count .write ≤ 1) :=
  ⟨by decide,
   (C7_atomic_mutation ⟨[], [], 0⟩ (some "al") (some "secret1") 0 0 none none).2.1
     400 "Username must be at least 3 characters" (by decide),
   (C7_atomic_mutation ⟨[], [], 0⟩ (some "alice") (some "secret1") 0 0 none none).1⟩

/-- C8: signup rejects invalid input with status 400, the specific message
of the first violated rule, and no change to the store: missing or empty
fields give "Username and password are required"; a present username
shorter than 3 characters gives the username-length message; a present
password shorter than 6 characters (with the username valid, since the
username check runs first) gives the password-length message. -/
theorem C8_signup_validation (db : DB) (username? password? : Option String)
    (now salt : Nat) :
    ((strTruthy username? = false ∨ strTruthy password? = false) →
      signup db username? password? now salt
        = (db, .failure 400 "Username and password are required", [])) ∧
    (∀ u p, username? = some u → password? = some p → u ≠ "" → p ≠ "" →
      u.length < 3 →
      signup db username? password? now salt
        = (db, .failure 400 "Username must be at least 3 characters", [])) ∧
    (∀ u p, username? = some u → password? = some p → u ≠ "" → p ≠ "" →
      3 ≤ u.length → p.length < 6 →
      signup db username? password? now salt
        = (db, .failure 400 "Password must be at least 6 characters", [])) := by
  refine ⟨?_, ?_, ?_⟩
  · intro h
    rcases h with h | h <;> simp [signup, h]
  · rintro u p rfl rfl hu0 hp0 hlen
    simp [signup, strTruthy, hu0, hp0, hlen]
  · rintro u p rfl rfl hu0 hp0 hu hlen
    simp [signup, strTruthy, hu0, hp0, hlen, Nat.not_lt.mpr hu]

/-- Witness for C8: one concrete request per validation rule, each leaving
the store unchanged. -/
theorem C8_witness :
    signup ⟨[], [], 0⟩ none (some "secret1") 0 0
        = (⟨[], [], 0⟩, .failure 400 "Username and password are required", []) ∧
    signup ⟨[], [], 0⟩ (some "ab") (some "secret1") 0 0
        = (⟨[], [], 0⟩, .failure 400 "Username must be at least 3 characters", []) ∧
    signup ⟨[], [], 0⟩ (some "abc") (some "short") 0 0
        = (⟨[], [], 0⟩, .failure 400 "Password must be at least 6 characters", []) :=
  ⟨(C8_signup_validation ⟨[], [], 0⟩ none (some "secret1") 0 0).1 (Or.inl rfl),
   (C8_signup_validation ⟨[], [], 0⟩ (some "ab") (some "secret1") 0 0).2.1
     "ab" "secret1" rfl rfl (by decide) (by decide) (by decide),
   (C8_signup_validation ⟨[], [], 0⟩ (some "abc") (some "short") 0 0).2.2
     "abc" "short" rfl rfl (by decide) (by decide) (by decide) (by decide)⟩

/-- A concrete stored build fixture. -/
def buildL : Build := ⟨0, 0, none, 2, [brickA]⟩

/-- A database holding `userBob` and the single build `buildL`. -/
def dbL : DB := ⟨[userBob], [buildL], 1⟩

/-- C9: `GET /api/load/:id` answers 404 "Build not found" exactly when no
stored build carries the requested id; otherwise it returns a stored build
with that id, in full — no ownership check is involved (the handler never
consults the user at all, as its type shows). -/
theorem C9_load (db : DB) (id : Nat) :
    (loadBuild db id = .failure 404 "Build not found" ↔ ∀ b ∈ db.builds, b.id ≠ id) ∧
    (∀ s m, loadBuild db id = .failure s m → s = 404 ∧ m = "Build not found") ∧
    (∀ b, loadBuild db id = .success b → b ∈ db.builds ∧ b.id = id) := by
  cases hfind : db.builds.find? (fun b => b.id == id) with
  | none =>
      have hall := List.find?_eq_none.mp hfind
      refine ⟨⟨fun _ b hb => ?_, fun _ => ?_⟩, ?_, ?_⟩
      · simpa using hall b hb
      · simp [loadBuild, hfind]
      · intro s m h
        simp only [loadBuild, hfind] at h
        cases h
        exact ⟨rfl, rfl⟩
      · intro b h
        simp [loadBuild, hfind] at h
  | some b0 =>
      have hmem : b0 ∈ db.builds := List.mem_of_find?_eq_some hfind
      have hid : b0.id = id := by simpa using List.find?_some hfind
      refine ⟨⟨fun h => ?_, fun h => ?_⟩, ?_, ?_⟩
      · simp [loadBuild, hfind] at h
      · exact absurd hid (h b0 hmem)
      · intro s m h
        simp [loadBuild, hfind] at h
      · intro b h
        simp only [loadBuild, hfind] at h
        cases h
        exact ⟨hmem, hid⟩

/-- Witness for C9: in `dbL` the stored build with id 0 is returned whole,
and id 5 yields the 404. -/
theorem C9_witness :
    loadBuild dbL 0 = .success buildL ∧ buildL ∈ dbL.builds ∧ buildL.id = 0 ∧
    loadBuild dbL 5 = .failure 404 "Build not found" := by
  refine ⟨by decide, ?_, ?_, ?_⟩
  · exact ((C9_load dbL 0).2.2 buildL (by decide)).1
  · exact ((C9_load dbL 0).2.2 buildL (by decide)).2
  · exact (C9_load dbL 5).1.mpr (by decide)

/-- C10: a save request carrying a `userId` but no `bricks` field at all
still succeeds — mongoose defaults the array path to `[]` — so exactly one
new Build owned by that user with an empty bricks sequence is appended and
its freshly assigned id is returned. -/
theorem C10_save_without_bricks (db : DB) (uid now : Nat) :
    save db (some uid) none now
        = (⟨db.users, db.builds ++ [⟨db.nextId, uid, none, now, []⟩], db.nextId + 1⟩,
            .success db.nextId, [.write]) := rfl

end Lego
